import Mathlib

/-!
Verification of the OpenSpace terminal session bridge.

This file gives a shallow embedding, in Lean 4, of the terminal-bridge layer
of the OpenSpace repository:

* the event multiplexer and per-session buffering of the `tauriAPI` bridge
  (`emitTerminalData`, `emitTerminalExit`, `onDataForSession`,
  `onExitForSession`, `terminal.write` / `terminal.resize` /
  `terminal.destroy`);
* the renderer bridge (`invokeWithFallbacks`, `appendTerminalOutput`,
  `handleTerminalExit`, `writeTerminal`, `resizeTerminal`, `killTerminal`);
* the pane runtime controller of the React app (`ensurePaneSession`,
  `resizePaneTerminal`, `disposePaneRuntime`, the `onTerminalExit` handler).

JavaScript strings are modelled as `List Char`; JavaScript `Map`s are
modelled as association lists with JavaScript `Map` get/set/delete
semantics (`mapGet`, `mapSet`, `mapDel`); JavaScript `Set`s of listeners are
modelled as lists of listener identifiers with add-if-absent semantics.
Callback invocations are made observable as an explicit list of `Delivery`
values, and backend invocations as a list of `BackendCall` values, so that
"delivered exactly once" and "no backend call was issued" become statements
about those lists.  `setTimeout` scheduling is modelled by storing the
deadline with the scheduled record and an explicit `runExitTimers` step that
fires every timer whose deadline has passed.
-/

namespace OpenSpace

/-- JavaScript `Map` lookup (`map.get(k)`), over an association-list model. -/
def mapGet {α : Type} (m : List (String × α)) (k : String) : Option α :=
  (m.find? (fun e => e.1 = k)).map (fun e => e.2)

/-- JavaScript `Map.delete(k)`: remove the binding for `k`, if any. -/
def mapDel {α : Type} (m : List (String × α)) (k : String) : List (String × α) :=
  m.filter (fun e => ¬ e.1 = k)

/-- JavaScript `Map.set(k, v)`: bind `k` to `v`, replacing any previous
binding.  (The bridge never iterates over these maps, so binding order is
unobservable and the new binding may be placed at the front.) -/
def mapSet {α : Type} (m : List (String × α)) (k : String) (v : α) :
    List (String × α) :=
  (k, v) :: mapDel m k

/-- JavaScript `Set.add(x)`: append `x` unless it is already present. -/
def setAdd (s : List Nat) (x : Nat) : List Nat :=
  if x ∈ s then s else s ++ [x]

theorem mapGet_cons {α : Type} (e : String × α) (m : List (String × α)) (k' : String) :
    mapGet (e :: m) k' = if e.1 = k' then some e.2 else mapGet m k' := by
  by_cases h : e.1 = k' <;> simp [mapGet, List.find?, h]

theorem mapGet_mapDel {α : Type} (m : List (String × α)) (k k' : String) :
    mapGet (mapDel m k) k' = if k' = k then none else mapGet m k' := by
  induction m with
  | nil => simp [mapDel, mapGet, List.find?]
  | cons e rest ih =>
    by_cases he : e.1 = k
    · have hdel : mapDel (e :: rest) k = mapDel rest k := by
        simp [mapDel, List.filter_cons, he]
      rw [hdel, ih, mapGet_cons]
      by_cases h : k' = k
      · simp [h]
      · have : ¬ e.1 = k' := fun hx => h (by rw [← hx, he])
        simp [h, this]
    · have hdel : mapDel (e :: rest) k = e :: mapDel rest k := by
        simp [mapDel, List.filter_cons, he]
      rw [hdel, mapGet_cons, mapGet_cons, ih]
      by_cases he' : e.1 = k'
      · have hk : ¬ k' = k := fun hx => he (by rw [he', hx])
        simp [he', hk]
      · simp [he']

theorem mapGet_mapSet {α : Type} (m : List (String × α)) (k k' : String) (v : α) :
    mapGet (mapSet m k v) k' = if k' = k then some v else mapGet m k' := by
  unfold mapSet
  rw [mapGet_cons, mapGet_mapDel]
  by_cases h : k' = k
  · simp [h]
  · have hk : ¬ k = k' := fun hx => h hx.symm
    simp [h, hk]

theorem mapGet_mapSet_self {α : Type} (m : List (String × α)) (k : String) (v : α) :
    mapGet (mapSet m k v) k = some v := by
  rw [mapGet_mapSet, if_pos rfl]

theorem mapGet_mapDel_self {α : Type} (m : List (String × α)) (k : String) :
    mapGet (mapDel m k) k = none := by
  rw [mapGet_mapDel, if_pos rfl]

theorem mapGet_filter_of_none {α : Type} (p : String × α → Bool)
    (m : List (String × α)) (k : String) (h : mapGet m k = none) :
    mapGet (m.filter p) k = none := by
  induction m with
  | nil => simp [mapGet]
  | cons e rest ih =>
    rw [mapGet_cons] at h
    by_cases he : e.1 = k
    · simp [he] at h
    · have hrest : mapGet rest k = none := by
        rw [if_neg he] at h
        exact h
      rw [List.filter_cons]
      by_cases hp : p e
      · rw [if_pos hp, mapGet_cons, if_neg he]
        exact ih hrest
      · rw [if_neg hp]
        exact ih hrest

/-- The most recent `cap` characters of `l` (JavaScript `l.slice(-cap)`,
equivalently `l.slice(l.length - cap)` for `l.length > cap`): drop all but
the last `cap` elements.  Truncated `Nat` subtraction makes this total. -/
def takeRightL (cap : Nat) (l : List Char) : List Char :=
  l.drop (l.length - cap)

theorem takeRightL_length_le (cap : Nat) (l : List Char) :
    (takeRightL cap l).length ≤ cap := by
  unfold takeRightL
  rw [List.length_drop]
  omega

theorem takeRightL_of_length_le (cap : Nat) (l : List Char) (h : l.length ≤ cap) :
    takeRightL cap l = l := by
  unfold takeRightL
  rw [Nat.sub_eq_zero_of_le h, List.drop_zero]

/-- Appending after truncating to the last `cap` characters and truncating
again gives the same result as truncating the full concatenation: the ring
policy "keep the most recent `cap`, drop the oldest" commutes with itself. -/
theorem takeRightL_takeRightL_append (cap : Nat) (x d : List Char) :
    takeRightL cap (takeRightL cap x ++ d) = takeRightL cap (x ++ d) := by
  unfold takeRightL
  rw [List.drop_append_eq_append_drop, List.drop_append_eq_append_drop,
    List.drop_drop, List.length_append, List.length_append, List.length_drop]
  have h1 : x.length - cap + ((x.length - (x.length - cap)) + d.length - cap) =
      x.length + d.length - cap := by omega
  have h2 : (x.length - (x.length - cap)) + d.length - cap -
      (x.length - (x.length - cap)) = x.length + d.length - cap - x.length := by
    omega
  rw [Nat.add_comm (x.length - (x.length - cap)) d.length] at *
  rw [show d.length + (x.length - (x.length - cap)) - cap -
      (x.length - (x.length - cap)) = x.length + d.length - cap - x.length by omega]
  rw [show x.length - cap + (d.length + (x.length - (x.length - cap)) - cap) =
      x.length + d.length - cap by omega]

/-- An observable callback invocation made by the bridge: either a global
listener receiving a tagged event, or a per-session listener receiving the
raw data / exit code.  Listeners are identified by numbers; the bridge's
`try { fn(...) } catch {}` error isolation means an invocation always counts
as a delivery regardless of what the listener does. -/
inductive Delivery where
  | globalData (listener : Nat) (sessionId : String) (data : List Char)
  | sessionData (listener : Nat) (data : List Char)
  | globalExit (listener : Nat) (sessionId : String) (code : Int)
  | sessionExit (listener : Nat) (code : Int)
deriving DecidableEq, Repr

/-- An observable invocation of the backend (a Tauri `invoke`). -/
inductive BackendCall where
  | create (cwd : List Char) (cols rows : Int)
  | write (sessionId : String) (data : List Char)
  | resize (sessionId : String) (cols rows : Int)
  | kill (sessionId : String)
deriving DecidableEq, Repr

/-- The session id a backend call is addressed at (`create` is addressed at
none, modelled as the empty id which no live session carries). -/
def BackendCall.sessionOf : BackendCall → String
  | .create _ _ _ => ""
  | .write s _ => s
  | .resize s _ _ => s
  | .kill s => s

/-- `TERMINAL_BUFFER_LIMIT = 1024 * 1024` from the `tauriAPI` bridge. -/
def TERMINAL_BUFFER_LIMIT : Nat := 1024 * 1024

/-- Retention window of a delayed exit record: the `setTimeout(..., 30000)`
in `emitTerminalExit`. -/
def EXIT_RECORD_RETENTION_MS : Nat := 30000

/-- The module-level mutable state of the `tauriAPI` terminal bridge
(`part_000`): the two global listener sets, the per-session output backlog
`terminalDataBySession`, the delayed exit records `terminalExitBySession`
(each stored with the absolute time at which its `setTimeout` deletion
fires), the per-session listener sets, and the remembered working
directories `terminalSessionCwd`. -/
structure BridgeState where
  terminalDataListeners : List Nat
  terminalExitListeners : List Nat
  terminalDataBySession : List (String × List Char)
  terminalExitBySession : List (String × (Int × Nat))
  terminalSessionDataListeners : List (String × List Nat)
  terminalSessionExitListeners : List (String × List Nat)
  terminalSessionCwd : List (String × List Char)
deriving DecidableEq, Repr

/-- `emitTerminalData(sessionId, data)`: notify every global data listener
with the tagged event; if the session has a non-empty per-session listener
set, deliver the data to each of them and stop; otherwise append the data
to the session's backlog, keeping only the most recent
`TERMINAL_BUFFER_LIMIT` characters. -/
def emitTerminalData (st : BridgeState) (sessionId : String) (data : List Char) :
    BridgeState × List Delivery :=
  let globalDeliveries :=
    st.terminalDataListeners.map (fun l => Delivery.globalData l sessionId data)
  let sessionListeners := (mapGet st.terminalSessionDataListeners sessionId).getD []
  if sessionListeners.length > 0 then
    (st, globalDeliveries ++ sessionListeners.map (fun l => Delivery.sessionData l data))
  else
    let previous := (mapGet st.terminalDataBySession sessionId).getD []
    let next := previous ++ data
    let stored :=
      if next.length > TERMINAL_BUFFER_LIMIT then
        next.drop (next.length - TERMINAL_BUFFER_LIMIT)
      else next
    ({ st with terminalDataBySession := mapSet st.terminalDataBySession sessionId stored },
      globalDeliveries)

/-- `emitTerminalExit(sessionId, code)` at absolute time `now`: notify every
global exit listener; if the session has a non-empty per-session exit
listener set, deliver the code to each of them, otherwise record a delayed
exit record whose `setTimeout` deletion fires at
`now + EXIT_RECORD_RETENTION_MS`; then unconditionally delete the session's
backlog, both its per-session listener sets, and its remembered working
directory. -/
def emitTerminalExit (st : BridgeState) (sessionId : String) (code : Int)
    (now : Nat) : BridgeState × List Delivery :=
  let globalDeliveries :=
    st.terminalExitListeners.map (fun l => Delivery.globalExit l sessionId code)
  let sessionListeners := (mapGet st.terminalSessionExitListeners sessionId).getD []
  let afterRecord :=
    if sessionListeners.length > 0 then
      (st, globalDeliveries ++ sessionListeners.map (fun l => Delivery.sessionExit l code))
    else
      let newRecords :=
        mapSet st.terminalExitBySession sessionId (code, now + EXIT_RECORD_RETENTION_MS)
      ({ st with terminalExitBySession := newRecords }, globalDeliveries)
  ({ afterRecord.1 with
      terminalDataBySession := mapDel afterRecord.1.terminalDataBySession sessionId,
      terminalSessionDataListeners := mapDel afterRecord.1.terminalSessionDataListeners sessionId,
      terminalSessionExitListeners := mapDel afterRecord.1.terminalSessionExitListeners sessionId,
      terminalSessionCwd := mapDel afterRecord.1.terminalSessionCwd sessionId },
    afterRecord.2)

/-- Fire every pending `setTimeout` deletion of a delayed exit record whose
deadline has been reached at time `now`. -/
def runExitTimers (st : BridgeState) (now : Nat) : BridgeState :=
  { st with terminalExitBySession :=
      st.terminalExitBySession.filter (fun e => ¬ e.2.2 ≤ now) }

/-- `onDataForSession(sessionId, listener)`: add the listener to the
session's per-session data listener set (creating the set if absent); if a
non-empty backlog is buffered for the session (JavaScript truthiness: an
empty string is falsy), delete the backlog entry and deliver the buffered
data to the listener once, synchronously, before the unsubscribe handle is
returned. -/
def onDataForSession (st : BridgeState) (sessionId : String) (listener : Nat) :
    BridgeState × List Delivery :=
  let newSet := setAdd ((mapGet st.terminalSessionDataListeners sessionId).getD []) listener
  let newSets := mapSet st.terminalSessionDataListeners sessionId newSet
  let st1 := { st with terminalSessionDataListeners := newSets }
  match mapGet st1.terminalDataBySession sessionId with
  | some buffered =>
    if buffered.length > 0 then
      ({ st1 with terminalDataBySession := mapDel st1.terminalDataBySession sessionId },
        [Delivery.sessionData listener buffered])
    else (st1, [])
  | none => (st1, [])

/-- `onExitForSession(sessionId, listener)`: add the listener to the
session's per-session exit listener set; if a delayed exit record is present
(`terminalExitBySession.has(sessionId)`), delete it and deliver the recorded
code to the listener once, synchronously. -/
def onExitForSession (st : BridgeState) (sessionId : String) (listener : Nat) :
    BridgeState × List Delivery :=
  let newSet := setAdd ((mapGet st.terminalSessionExitListeners sessionId).getD []) listener
  let newSets := mapSet st.terminalSessionExitListeners sessionId newSet
  let st1 := { st with terminalSessionExitListeners := newSets }
  match mapGet st1.terminalExitBySession sessionId with
  | some record =>
    ({ st1 with terminalExitBySession := mapDel st1.terminalExitBySession sessionId },
      [Delivery.sessionExit listener record.1])
  | none => (st1, [])

/-- A JavaScript value as far as the `tauriAPI` bridge inspects one: the
bridge's `isNonEmptyString` guard distinguishes non-empty strings from
everything else (empty strings, numbers, booleans, `null`, `undefined`). -/
inductive JVal where
  | str (s : String)
  | num (n : Int)
  | boolean (b : Bool)
  | nullJ
  | undefinedJ
deriving DecidableEq, Repr

/-- `isNonEmptyString(value)` from the `tauriAPI` bridge
(`typeof value === "string" && value.length > 0`), returning the string
when the guard passes. -/
def asNonEmptyString : JVal → Option String
  | .str s => if s = "" then none else some s
  | _ => none

/-- JavaScript `Number(v || 1)` for a numeric `v` (`0` is falsy). -/
def numberOr1 (n : Int) : Int :=
  if n = 0 then 1 else n

/-- `tauriAPI.terminal.write(id, data)`: if `id` is not a non-empty string,
return immediately; otherwise issue the `terminal_write` invoke
(fire-and-forget, failures swallowed by `.catch(() => {})`). -/
def terminalWrite (st : BridgeState) (id : JVal) (data : List Char) :
    BridgeState × List BackendCall :=
  match asNonEmptyString id with
  | none => (st, [])
  | some s => (st, [BackendCall.write s data])

/-- `tauriAPI.terminal.resize(id, cols, rows)`: if `id` is not a non-empty
string, return immediately; otherwise issue the `terminal_resize` invoke
with `Number(cols || 1)` and `Number(rows || 1)` (fire-and-forget). -/
def terminalResize (st : BridgeState) (id : JVal) (cols rows : Int) :
    BridgeState × List BackendCall :=
  match asNonEmptyString id with
  | none => (st, [])
  | some s => (st, [BackendCall.resize s (numberOr1 cols) (numberOr1 rows)])

/-- `tauriAPI.terminal.destroy(id)`: if `id` is not a non-empty string,
return immediately; otherwise delete the session's backlog, delayed exit
record and remembered working directory, then issue the `terminal_kill`
invoke (fire-and-forget, failures swallowed), so the local cleanup does not
depend on the remote call's outcome. -/
def terminalDestroy (st : BridgeState) (id : JVal) :
    BridgeState × List BackendCall :=
  match asNonEmptyString id with
  | none => (st, [])
  | some s =>
    ({ st with
        terminalDataBySession := mapDel st.terminalDataBySession s,
        terminalExitBySession := mapDel st.terminalExitBySession s,
        terminalSessionCwd := mapDel st.terminalSessionCwd s },
      [BackendCall.kill s])

/-- One attempt sequence of `invokeWithFallbacks`: try each `(command,
argsVariant)` pair in order, return the first success together with the
list of attempts actually issued; when an attempt fails remember its error
(`lastError`), and when the list is exhausted fail with the last-seen error
(or the default `action failed` error if no attempt ran at all). -/
def runAttempts {sh err res : Type} (backend : String → sh → Except err res)
    (defaultErr : err) :
    List (String × sh) → Option err → Except err res × List (String × sh)
  | [], lastError => (.error (lastError.getD defaultErr), [])
  | ca :: rest, lastError =>
    match backend ca.1 ca.2 with
    | .ok v => (.ok v, [ca])
    | .error e =>
      let r := runAttempts backend defaultErr rest (some e)
      (r.1, ca :: r.2)

/-- `invokeWithFallbacks(action, commands, argsVariants)` from the renderer
bridge: for each wire command name in order, for each payload-shape variant
in order, try `invoke(command, args)`; return the first success, otherwise
throw the last-seen error.  The result is paired with the ordered list of
`(command, argsVariant)` attempts actually issued. -/
def invokeWithFallbacks {sh err res : Type} (backend : String → sh → Except err res)
    (commands : List String) (argsVariants : List sh) (defaultErr : err) :
    Except err res × List (String × sh) :=
  runAttempts backend defaultErr
    (commands.flatMap (fun c => argsVariants.map (fun a => (c, a)))) none

/-- The module-level mutable state of the renderer bridge (`part_001` and
`openspaceBridge.ts`): the per-session output buffer
`terminalOutputBySession` and the global listener sets. -/
structure RendererState where
  terminalOutputBySession : List (String × List Char)
  terminalOutputListeners : List Nat
  terminalExitListeners : List Nat
deriving DecidableEq, Repr

/-- `appendTerminalOutput(payload)` from the renderer bridge: append the
payload data to the session's buffer, keep only the most recent 8000
characters (`combined.slice(-8000)`), and (in the `part_001` variant)
notify every global output listener. -/
def appendTerminalOutput (st : RendererState) (sessionId : String)
    (data : List Char) : RendererState × List Delivery :=
  let current := (mapGet st.terminalOutputBySession sessionId).getD []
  let combined := current ++ data
  let stored := combined.drop (combined.length - 8000)
  ({ st with terminalOutputBySession := mapSet st.terminalOutputBySession sessionId stored },
    st.terminalOutputListeners.map (fun l => Delivery.globalData l sessionId data))

/-- `handleTerminalExit(payload)` from the renderer bridge: delete the
session's output buffer and notify every global exit listener. -/
def handleTerminalExit (st : RendererState) (sessionId : String) (code : Int) :
    RendererState × List Delivery :=
  ({ st with terminalOutputBySession := mapDel st.terminalOutputBySession sessionId },
    st.terminalExitListeners.map (fun l => Delivery.globalExit l sessionId code))

/-- `writeTerminal(sessionId, data)` from the renderer bridge: if the
session id is falsy (the empty string), return immediately; otherwise issue
the write through `invokeWithFallbacks` (abstracted here to its overall
outcome `remoteOk`) and rethrow on failure.  The boolean result records
whether the call throws. -/
def writeTerminal (sessionId : String) (data : List Char) (remoteOk : Bool) :
    List BackendCall × Bool :=
  if sessionId = "" then ([], false)
  else ([BackendCall.write sessionId data], !remoteOk)

/-- `resizeTerminal(sessionId, cols, rows)` from the renderer bridge: if the
session id is falsy, return immediately; otherwise issue the resize with
the given dimensions unchanged, rethrowing on failure. -/
def resizeTerminal (sessionId : String) (cols rows : Int) (remoteOk : Bool) :
    List BackendCall × Bool :=
  if sessionId = "" then ([], false)
  else ([BackendCall.resize sessionId cols rows], !remoteOk)

/-- `killTerminal(sessionId)` from the renderer bridge: if the session id is
falsy, return immediately; otherwise issue the kill and, only when the
remote call succeeds, delete the session's output buffer; on failure the
error is rethrown and the buffer entry is left in place. -/
def killTerminal (st : RendererState) (sessionId : String) (remoteOk : Bool) :
    RendererState × List BackendCall × Bool :=
  if sessionId = "" then (st, [], false)
  else if remoteOk then
    ({ st with terminalOutputBySession := mapDel st.terminalOutputBySession sessionId },
      [BackendCall.kill sessionId], false)
  else (st, [BackendCall.kill sessionId], true)

/-- The pane controller state of the React app (`part_002`): the
pane-to-session and session-to-pane maps (`paneSessionMapRef`,
`sessionPaneMapRef`) and the in-flight-creation markers
(`creatingSessionRef`, holding the pending promise, modelled by a promise
identifier). -/
structure AppState where
  paneSessionMap : List (String × String)
  sessionPaneMap : List (String × String)
  creatingSession : List (String × Nat)
deriving DecidableEq, Repr

/-- What a call to `ensurePaneSession` returns: the already-bound session
id, the pending creation promise (identified by number; every holder of the
same promise observes the same resulting session id), or the error thrown
when the pane's terminal runtime never appears. -/
inductive EnsureOutcome where
  | bound (sessionId : String)
  | pending (promiseId : Nat)
  | runtimeMissing
deriving DecidableEq, Repr

/-- The synchronous phase of `ensurePaneSession(paneId)`: if the pane
already has a session, return it; if a creation is already in flight for
the pane, return the same pending promise; otherwise (when the pane's
runtime is present) start one backend create-call, record the new promise
in `creatingSessionRef`, and return it.  The third component counts the
backend create-calls issued by this call. -/
def ensurePaneSession (app : AppState) (paneId : String) (runtimePresent : Bool)
    (fresh : Nat) : EnsureOutcome × AppState × Nat :=
  match mapGet app.paneSessionMap paneId with
  | some existing => (.bound existing, app, 0)
  | none =>
    match mapGet app.creatingSession paneId with
    | some inFlight => (.pending inFlight, app, 0)
    | none =>
      if runtimePresent then
        (.pending fresh,
          { app with creatingSession := mapSet app.creatingSession paneId fresh }, 1)
      else (.runtimeMissing, app, 0)

/-- The `.then` continuation of the pending creation promise: on success
register the pane-to-session mapping in both directions and clear the
in-flight marker (`.finally`).  The UI status update and the follow-up
resize are omitted. -/
def resolveCreation (app : AppState) (paneId sessionId : String) : AppState :=
  { app with
      paneSessionMap := mapSet app.paneSessionMap paneId sessionId,
      sessionPaneMap := mapSet app.sessionPaneMap sessionId paneId,
      creatingSession := mapDel app.creatingSession paneId }

/-- The `.catch` continuation of the pending creation promise: on failure
clear the in-flight marker and leave the pane unbound (the UI error status
update is omitted). -/
def rejectCreation (app : AppState) (paneId : String) : AppState :=
  { app with creatingSession := mapDel app.creatingSession paneId }

/-- `resizePaneTerminal(paneId)`: if the pane has no runtime or no bound
session, do nothing; otherwise send `resizeTerminal` the pane's current
dimensions each floored to a minimum of 2 (`Math.max(2, ...)`); the result
is fire-and-forget (`void ... .catch(...)`), so only the issued backend
calls are observable. -/
def resizePaneTerminal (app : AppState) (paneId : String) (runtimePresent : Bool)
    (cols rows : Int) (remoteOk : Bool) : List BackendCall :=
  if runtimePresent then
    match mapGet app.paneSessionMap paneId with
    | some sessionId => (resizeTerminal sessionId (max 2 cols) (max 2 rows) remoteOk).1
    | none => []
  else []

/-- The `terminal.onData` input handler installed by `createPaneRuntime`:
forward keystrokes through `writeTerminal` to the pane's bound session, and
silently drop them when the pane has no bound session. -/
def paneInputWrite (app : AppState) (paneId : String) (data : List Char)
    (remoteOk : Bool) : List BackendCall :=
  match mapGet app.paneSessionMap paneId with
  | some sessionId => (writeTerminal sessionId data remoteOk).1
  | none => []

/-- `disposePaneRuntime(paneId, killSession)`: drop the pane's runtime
(surface disposal omitted), clear the pane's session binding and in-flight
marker, and, when the pane was bound, clear the reverse mapping and — if
`killSession` — call `killTerminal` on the bound session (fire-and-forget,
failures swallowed by `.catch`). -/
def disposePaneRuntime (app : AppState) (rst : RendererState) (paneId : String)
    (killSession : Bool) (remoteOk : Bool) :
    AppState × RendererState × List BackendCall :=
  let sessionId := mapGet app.paneSessionMap paneId
  let app1 := { app with
      paneSessionMap := mapDel app.paneSessionMap paneId,
      creatingSession := mapDel app.creatingSession paneId }
  match sessionId with
  | some s =>
    let app2 := { app1 with sessionPaneMap := mapDel app1.sessionPaneMap s }
    if killSession then
      let k := killTerminal rst s remoteOk
      (app2, k.1, k.2.1)
    else (app2, rst, [])
  | none => (app1, rst, [])

/-- The `onTerminalExit` handler the app registers as a global exit
listener: look up the owning pane; if none, ignore the event; otherwise
clear the session-to-pane and pane-to-session mappings, append the exit
marker to the surface and update the pane status (both omitted), and — only
when the pane's runtime is still mounted — call `ensurePaneSession` again
to respawn.  The second component counts backend create-calls issued by the
respawn. -/
def onTerminalExitHandler (app : AppState) (sessionId : String) (exitCode : Int)
    (runtimePresent : Bool) (fresh : Nat) : AppState × Nat :=
  match mapGet app.sessionPaneMap sessionId with
  | none => (app, 0)
  | some paneId =>
    let app1 := { app with
        sessionPaneMap := mapDel app.sessionPaneMap sessionId,
        paneSessionMap := mapDel app.paneSessionMap paneId }
    if runtimePresent then
      let r := ensurePaneSession app1 paneId true fresh
      (r.2.1, r.2.2)
    else (app1, 0)

/-- Full processing of one exit event in the renderer-bridge variant: the
bridge's `handleTerminalExit` deletes the session's output buffer and
notifies the global exit listeners, among which the app has registered
`onTerminalExitHandler`. -/
def processAppExit (rst : RendererState) (app : AppState) (sessionId : String)
    (exitCode : Int) (runtimePresent : Bool) (fresh : Nat) :
    RendererState × AppState × Nat :=
  let rst1 := (handleTerminalExit rst sessionId exitCode).1
  let r := onTerminalExitHandler app sessionId exitCode runtimePresent fresh
  (rst1, r.1, r.2)

/-- C1: for every pane id, while an earlier `ensurePaneSession` call has an
unresolved creation in flight (the in-flight marker is set) and no session
is yet bound to the pane, every overlapping call returns the identical
pending result — the same promise, hence the identical resulting session id
once it resolves — and issues no further backend create-call, so exactly
one create-call is issued for the pane: the first call issues it. -/
theorem ensurePaneSession_dedup (app : AppState) (paneId : String) (fresh : Nat)
    (hUnbound : mapGet app.paneSessionMap paneId = none)
    (hNoInFlight : mapGet app.creatingSession paneId = none) :
    (ensurePaneSession app paneId true fresh).1 = .pending fresh ∧
    (ensurePaneSession app paneId true fresh).2.2 = 1 ∧
    (∀ rt g, ensurePaneSession (ensurePaneSession app paneId true fresh).2.1 paneId rt g =
      (.pending fresh, (ensurePaneSession app paneId true fresh).2.1, 0)) ∧
    (∀ s, mapGet (resolveCreation
        (ensurePaneSession app paneId true fresh).2.1 paneId s).paneSessionMap paneId =
      some s) := by
  have hfirst : ensurePaneSession app paneId true fresh =
      (.pending fresh,
        { app with creatingSession := mapSet app.creatingSession paneId fresh }, 1) := by
    unfold ensurePaneSession
    rw [hUnbound, hNoInFlight]
    simp
  refine ⟨by rw [hfirst], by rw [hfirst], ?_, ?_⟩
  · intro rt g
    rw [hfirst]
    unfold ensurePaneSession
    rw [show ({ app with creatingSession := mapSet app.creatingSession paneId fresh } :
        AppState).paneSessionMap = app.paneSessionMap from rfl, hUnbound]
    simp [mapGet_mapSet]
  · intro s
    rw [hfirst]
    unfold resolveCreation
    simp [mapGet_mapSet]

/-- Witness for `ensurePaneSession_dedup`: the empty controller state with
pane `"pane-1"` and promise `7` satisfies the hypotheses and the
conclusion. -/
theorem ensurePaneSession_dedup_witness :
    mapGet (AppState.mk [] [] []).paneSessionMap "pane-1" = none ∧
    mapGet (AppState.mk [] [] []).creatingSession "pane-1" = none ∧
    ((ensurePaneSession (AppState.mk [] [] []) "pane-1" true 7).1 = .pending 7 ∧
      (ensurePaneSession (AppState.mk [] [] []) "pane-1" true 7).2.2 = 1 ∧
      (∀ rt g, ensurePaneSession
          (ensurePaneSession (AppState.mk [] [] []) "pane-1" true 7).2.1 "pane-1" rt g =
        (.pending 7, (ensurePaneSession (AppState.mk [] [] []) "pane-1" true 7).2.1, 0)) ∧
      (∀ s, mapGet (resolveCreation
          (ensurePaneSession (AppState.mk [] [] []) "pane-1" true 7).2.1
          "pane-1" s).paneSessionMap "pane-1" = some s)) :=
  ⟨rfl, rfl, ensurePaneSession_dedup (AppState.mk [] [] []) "pane-1" 7 rfl rfl⟩

/-- The stored-backlog branch of `emitTerminalData` — `next.length >
TERMINAL_BUFFER_LIMIT ? next.slice(next.length - TERMINAL_BUFFER_LIMIT) :
next` — always equals "keep the most recent `TERMINAL_BUFFER_LIMIT`
characters". -/
theorem ringStore_eq_takeRightL (l : List Char) :
    (if l.length > TERMINAL_BUFFER_LIMIT then
        l.drop (l.length - TERMINAL_BUFFER_LIMIT)
      else l) = takeRightL TERMINAL_BUFFER_LIMIT l := by
  unfold takeRightL
  by_cases h : l.length > TERMINAL_BUFFER_LIMIT
  · simp [h]
  · simp [h, Nat.sub_eq_zero_of_le (le_of_not_lt h)]

/-- With no per-session data listener attached, one `emitTerminalData` call
replaces the session's backlog by the capped concatenation and leaves the
per-session listener sets untouched. -/
theorem emitTerminalData_noListener (st : BridgeState) (sid : String) (d : List Char)
    (hl : (mapGet st.terminalSessionDataListeners sid).getD [] = []) :
    (emitTerminalData st sid d).1.terminalDataBySession =
      mapSet st.terminalDataBySession sid
        (takeRightL TERMINAL_BUFFER_LIMIT
          ((mapGet st.terminalDataBySession sid).getD [] ++ d)) ∧
    (emitTerminalData st sid d).1.terminalSessionDataListeners =
      st.terminalSessionDataListeners := by
  unfold emitTerminalData
  simp only [hl, List.length_nil, gt_iff_lt, Nat.lt_irrefl, if_false]
  refine ⟨?_, trivial⟩
  rw [← ringStore_eq_takeRightL]

/-- Folding a sequence of output events for one session through
`emitTerminalData` (the `tauriAPI` variant). -/
def emitDataFold (st : BridgeState) (sessionId : String)
    (events : List (List Char)) : BridgeState :=
  events.foldl (fun s d => (emitTerminalData s sessionId d).1) st

/-- Folding a sequence of output events for one session through
`appendTerminalOutput` (the renderer-bridge variant). -/
def appendOutputFold (st : RendererState) (sessionId : String)
    (events : List (List Char)) : RendererState :=
  events.foldl (fun s d => (appendTerminalOutput s sessionId d).1) st

theorem appendTerminalOutput_state (rst : RendererState) (sid : String) (d : List Char) :
    (appendTerminalOutput rst sid d).1.terminalOutputBySession =
      mapSet rst.terminalOutputBySession sid
        (takeRightL 8000 ((mapGet rst.terminalOutputBySession sid).getD [] ++ d)) := rfl

theorem emitDataFold_backlog (sid : String) (events : List (List Char)) :
    ∀ st : BridgeState,
      (mapGet st.terminalSessionDataListeners sid).getD [] = [] →
      ((mapGet st.terminalDataBySession sid).getD []).length ≤ TERMINAL_BUFFER_LIMIT →
      (mapGet (emitDataFold st sid events).terminalDataBySession sid).getD [] =
        takeRightL TERMINAL_BUFFER_LIMIT
          ((mapGet st.terminalDataBySession sid).getD [] ++ events.flatten) := by
  induction events with
  | nil =>
    intro st _ hb
    simp only [emitDataFold, List.foldl_nil, List.flatten_nil, List.append_nil]
    exact (takeRightL_of_length_le _ _ hb).symm
  | cons e rest ih =>
    intro st hl hb
    obtain ⟨hdb, hld⟩ := emitTerminalData_noListener st sid e hl
    have hl1 : (mapGet (emitTerminalData st sid e).1.terminalSessionDataListeners sid).getD []
        = [] := by rw [hld]; exact hl
    have hget1 : (mapGet (emitTerminalData st sid e).1.terminalDataBySession sid).getD [] =
        takeRightL TERMINAL_BUFFER_LIMIT
          ((mapGet st.terminalDataBySession sid).getD [] ++ e) := by
      rw [hdb, mapGet_mapSet_self, Option.getD_some]
    have hb1 : ((mapGet (emitTerminalData st sid e).1.terminalDataBySession sid).getD []).length
        ≤ TERMINAL_BUFFER_LIMIT := by
      rw [hget1]
      exact takeRightL_length_le _ _
    have hfold : emitDataFold st sid (e :: rest) =
        emitDataFold (emitTerminalData st sid e).1 sid rest := rfl
    rw [hfold, ih _ hl1 hb1, hget1]
    rw [takeRightL_takeRightL_append, List.flatten_cons, ← List.append_assoc]

theorem appendOutputFold_backlog (sid : String) (events : List (List Char)) :
    ∀ rst : RendererState,
      ((mapGet rst.terminalOutputBySession sid).getD []).length ≤ 8000 →
      (mapGet (appendOutputFold rst sid events).terminalOutputBySession sid).getD [] =
        takeRightL 8000 ((mapGet rst.terminalOutputBySession sid).getD [] ++ events.flatten) := by
  induction events with
  | nil =>
    intro rst hb
    simp only [appendOutputFold, List.foldl_nil, List.flatten_nil, List.append_nil]
    exact (takeRightL_of_length_le _ _ hb).symm
  | cons e rest ih =>
    intro rst hb
    have hget1 : (mapGet (appendTerminalOutput rst sid e).1.terminalOutputBySession sid).getD []
        = takeRightL 8000 ((mapGet rst.terminalOutputBySession sid).getD [] ++ e) := by
      rw [appendTerminalOutput_state, mapGet_mapSet_self, Option.getD_some]
    have hb1 : ((mapGet (appendTerminalOutput rst sid e).1.terminalOutputBySession sid).getD
        []).length ≤ 8000 := by
      rw [hget1]
      exact takeRightL_length_le _ _
    have hfold : appendOutputFold rst sid (e :: rest) =
        appendOutputFold (appendTerminalOutput rst sid e).1 sid rest := rfl
    rw [hfold, ih _ hb1, hget1]
    rw [takeRightL_takeRightL_append, List.flatten_cons, ← List.append_assoc]

/-- C2: for every session with no attached per-session output listener and
every sequence of output events starting from an absent backlog entry, the
stored backlog equals the concatenation of all received data truncated to
the most recent cap characters — `TERMINAL_BUFFER_LIMIT` (1 MiB) in the
`tauriAPI` variant, 8000 characters in the renderer-bridge variant — with
the oldest characters dropped first, and its length never exceeds the
cap. -/
theorem backlog_ring_policy (st : BridgeState) (rst : RendererState) (sid : String)
    (events : List (List Char))
    (h0 : (mapGet st.terminalSessionDataListeners sid).getD [] = [])
    (h1 : mapGet st.terminalDataBySession sid = none)
    (h2 : mapGet rst.terminalOutputBySession sid = none) :
    ((mapGet (emitDataFold st sid events).terminalDataBySession sid).getD [] =
        takeRightL TERMINAL_BUFFER_LIMIT events.flatten ∧
      ((mapGet (emitDataFold st sid events).terminalDataBySession sid).getD []).length ≤
        TERMINAL_BUFFER_LIMIT) ∧
    ((mapGet (appendOutputFold rst sid events).terminalOutputBySession sid).getD [] =
        takeRightL 8000 events.flatten ∧
      ((mapGet (appendOutputFold rst sid events).terminalOutputBySession sid).getD []).length ≤
        8000) := by
  have e1 := emitDataFold_backlog sid events st h0 (by rw [h1]; simp)
  have e2 := appendOutputFold_backlog sid events rst (by rw [h2]; simp)
  rw [h1] at e1
  rw [h2] at e2
  simp only [Option.getD_none, List.nil_append] at e1 e2
  refine ⟨⟨e1, ?_⟩, ⟨e2, ?_⟩⟩
  · rw [e1]; exact takeRightL_length_le _ _
  · rw [e2]; exact takeRightL_length_le _ _

/-- Witness for `backlog_ring_policy`: empty bridge states, session
`"s1"`, events `["ab", "c"]`; the stored backlog is `"abc"` in both
variants. -/
theorem backlog_ring_policy_witness :
    (mapGet (BridgeState.mk [] [] [] [] [] [] []).terminalSessionDataListeners "s1").getD [] =
        ([] : List Nat) ∧
    mapGet (BridgeState.mk [] [] [] [] [] [] []).terminalDataBySession "s1" = none ∧
    mapGet (RendererState.mk [] [] []).terminalOutputBySession "s1" = none ∧
    (mapGet (emitDataFold (BridgeState.mk [] [] [] [] [] [] []) "s1"
        [['a', 'b'], ['c']]).terminalDataBySession "s1").getD [] =
      takeRightL TERMINAL_BUFFER_LIMIT [['a', 'b'], ['c']].flatten ∧
    (mapGet (appendOutputFold (RendererState.mk [] [] []) "s1"
        [['a', 'b'], ['c']]).terminalOutputBySession "s1").getD [] =
      takeRightL 8000 [['a', 'b'], ['c']].flatten := by
  have h := backlog_ring_policy (BridgeState.mk [] [] [] [] [] [] [])
    (RendererState.mk [] [] []) "s1" [['a', 'b'], ['c']] rfl rfl rfl
  exact ⟨rfl, rfl, rfl, h.1.1, h.2.1⟩

/-- C3: for every session with a non-empty buffered backlog, attaching the
first per-session output listener synchronously delivers the entire
concatenated backlog to that listener exactly once before the unsubscribe
handle is returned, deletes the backlog entry (so no later attach can
receive the buffered data again), and a subsequent output event while the
listener is attached is delivered live to it rather than buffered. -/
theorem onDataForSession_flush_once (st : BridgeState) (sid : String)
    (b d : List Char) (l l2 : Nat)
    (hb : mapGet st.terminalDataBySession sid = some b)
    (hne : b ≠ [])
    (hl : mapGet st.terminalSessionDataListeners sid = none) :
    (onDataForSession st sid l).2 = [Delivery.sessionData l b] ∧
    mapGet (onDataForSession st sid l).1.terminalDataBySession sid = none ∧
    mapGet (onDataForSession st sid l).1.terminalSessionDataListeners sid = some [l] ∧
    (onDataForSession (onDataForSession st sid l).1 sid l2).2 = [] ∧
    (emitTerminalData (onDataForSession st sid l).1 sid d).2 =
      st.terminalDataListeners.map (fun g => Delivery.globalData g sid d) ++
        [Delivery.sessionData l d] ∧
    mapGet (emitTerminalData (onDataForSession st sid l).1 sid d).1.terminalDataBySession
      sid = none := by
  have hpos : b.length > 0 := List.length_pos.mpr hne
  have hset : setAdd ((mapGet st.terminalSessionDataListeners sid).getD []) l = [l] := by
    rw [hl]
    simp [setAdd]
  have hstep : onDataForSession st sid l =
      (BridgeState.mk st.terminalDataListeners st.terminalExitListeners
        (mapDel st.terminalDataBySession sid) st.terminalExitBySession
        (mapSet st.terminalSessionDataListeners sid [l]) st.terminalSessionExitListeners
        st.terminalSessionCwd,
        [Delivery.sessionData l b]) := by
    unfold onDataForSession
    rw [hset]
    simp only [hb, hpos, if_true]
  rw [hstep]
  have hdb : mapGet (mapDel st.terminalDataBySession sid) sid = none :=
    mapGet_mapDel_self _ _
  have hsl : mapGet (mapSet st.terminalSessionDataListeners sid [l]) sid = some [l] :=
    mapGet_mapSet_self _ _ _
  refine ⟨rfl, hdb, hsl, ?_, ?_, ?_⟩
  · unfold onDataForSession
    simp only [hdb]
  · unfold emitTerminalData
    simp only [hsl]
    rfl
  · unfold emitTerminalData
    simp only [hsl]
    exact hdb

/-- Witness for `onDataForSession_flush_once`: a state with backlog `"x"`
for session `"s1"`, listener `0` attaching first, listener `1` second, and
a follow-up output event `"y"`. -/
theorem onDataForSession_flush_once_witness :
    mapGet (BridgeState.mk [] [] [("s1", ['x'])] [] [] [] []).terminalDataBySession "s1" =
        some ['x'] ∧
    (['x'] : List Char) ≠ [] ∧
    mapGet (BridgeState.mk [] [] [("s1", ['x'])] [] [] [] []).terminalSessionDataListeners
        "s1" = none ∧
    ((onDataForSession (BridgeState.mk [] [] [("s1", ['x'])] [] [] [] []) "s1" 0).2 =
        [Delivery.sessionData 0 ['x']] ∧
      mapGet (onDataForSession (BridgeState.mk [] [] [("s1", ['x'])] [] [] [] [])
        "s1" 0).1.terminalDataBySession "s1" = none ∧
      mapGet (onDataForSession (BridgeState.mk [] [] [("s1", ['x'])] [] [] [] [])
        "s1" 0).1.terminalSessionDataListeners "s1" = some [0] ∧
      (onDataForSession (onDataForSession (BridgeState.mk [] [] [("s1", ['x'])] [] [] [] [])
        "s1" 0).1 "s1" 1).2 = [] ∧
      (emitTerminalData (onDataForSession (BridgeState.mk [] [] [("s1", ['x'])] [] [] [] [])
        "s1" 0).1 "s1" ['y']).2 =
        (BridgeState.mk [] [] [("s1", ['x'])] [] [] [] []).terminalDataListeners.map
          (fun g => Delivery.globalData g "s1" ['y']) ++ [Delivery.sessionData 0 ['y']] ∧
      mapGet (emitTerminalData (onDataForSession
        (BridgeState.mk [] [] [("s1", ['x'])] [] [] [] []) "s1" 0).1 "s1"
        ['y']).1.terminalDataBySession "s1" = none) :=
  ⟨rfl, by decide, rfl,
    onDataForSession_flush_once (BridgeState.mk [] [] [("s1", ['x'])] [] [] [] [])
      "s1" ['x'] ['y'] 0 1 rfl (by decide) rfl⟩

/-- C4: an exit event processed with no per-session exit listener stores a
delayed exit record; the first exit listener attached before the 30-second
retention window elapses receives the code exactly once and the record is
deleted (a second attach receives nothing); if the window elapses with no
listener, the timer discards the record and a later attach receives
nothing. -/
theorem exit_record_ttl (st : BridgeState) (sid : String) (code : Int)
    (t0 t tlate : Nat) (l l2 l3 : Nat)
    (hNoL : (mapGet st.terminalSessionExitListeners sid).getD [] = [])
    (hconsume : t < t0 + EXIT_RECORD_RETENTION_MS)
    (hexpire : t0 + EXIT_RECORD_RETENTION_MS ≤ tlate) :
    mapGet (emitTerminalExit st sid code t0).1.terminalExitBySession sid =
      some (code, t0 + EXIT_RECORD_RETENTION_MS) ∧
    (onExitForSession (runExitTimers (emitTerminalExit st sid code t0).1 t) sid l).2 =
      [Delivery.sessionExit l code] ∧
    mapGet (onExitForSession (runExitTimers (emitTerminalExit st sid code t0).1 t) sid
      l).1.terminalExitBySession sid = none ∧
    (onExitForSession (onExitForSession
      (runExitTimers (emitTerminalExit st sid code t0).1 t) sid l).1 sid l2).2 = [] ∧
    mapGet (runExitTimers (emitTerminalExit st sid code t0).1
      tlate).terminalExitBySession sid = none ∧
    (onExitForSession (runExitTimers (emitTerminalExit st sid code t0).1 tlate) sid
      l3).2 = [] := by
  have hstep : emitTerminalExit st sid code t0 =
      (BridgeState.mk st.terminalDataListeners st.terminalExitListeners
        (mapDel st.terminalDataBySession sid)
        (mapSet st.terminalExitBySession sid (code, t0 + EXIT_RECORD_RETENTION_MS))
        (mapDel st.terminalSessionDataListeners sid)
        (mapDel st.terminalSessionExitListeners sid)
        (mapDel st.terminalSessionCwd sid),
        st.terminalExitListeners.map (fun g => Delivery.globalExit g sid code)) := by
    unfold emitTerminalExit
    rw [hNoL]
    simp only [List.length_nil, gt_iff_lt, Nat.lt_irrefl, if_false]
  rw [hstep]
  have hkeepOne : decide (¬ (t0 + EXIT_RECORD_RETENTION_MS ≤ t)) = true :=
    decide_eq_true (by omega)
  have hdropOne : decide (¬ (t0 + EXIT_RECORD_RETENTION_MS ≤ tlate)) = false := by
    simp only [decide_eq_false_iff_not, not_not]
    exact hexpire
  have hkeep : (mapSet st.terminalExitBySession sid
      (code, t0 + EXIT_RECORD_RETENTION_MS)).filter (fun e => ¬ e.2.2 ≤ t) =
      (sid, (code, t0 + EXIT_RECORD_RETENTION_MS)) ::
        (mapDel st.terminalExitBySession sid).filter (fun e => ¬ e.2.2 ≤ t) := by
    unfold mapSet
    rw [List.filter_cons]
    simp only [hkeepOne, if_true]
  have hdrop : (mapSet st.terminalExitBySession sid
      (code, t0 + EXIT_RECORD_RETENTION_MS)).filter (fun e => ¬ e.2.2 ≤ tlate) =
      (mapDel st.terminalExitBySession sid).filter (fun e => ¬ e.2.2 ≤ tlate) := by
    unfold mapSet
    rw [List.filter_cons]
    simp only [hdropOne, Bool.false_eq_true, if_false]
  have hgetKeep : mapGet ((mapSet st.terminalExitBySession sid
      (code, t0 + EXIT_RECORD_RETENTION_MS)).filter (fun e => ¬ e.2.2 ≤ t)) sid =
      some (code, t0 + EXIT_RECORD_RETENTION_MS) := by
    rw [hkeep, mapGet_cons, if_pos rfl]
  have hgetDrop : mapGet ((mapSet st.terminalExitBySession sid
      (code, t0 + EXIT_RECORD_RETENTION_MS)).filter (fun e => ¬ e.2.2 ≤ tlate)) sid =
      none := by
    rw [hdrop]
    exact mapGet_filter_of_none _ _ _ (mapGet_mapDel_self _ _)
  refine ⟨mapGet_mapSet_self _ _ _, ?_, ?_, ?_, ?_, ?_⟩
  · unfold onExitForSession runExitTimers
    simp only [hgetKeep]
  · unfold onExitForSession runExitTimers
    simp only [hgetKeep]
    exact mapGet_mapDel_self _ _
  · unfold onExitForSession runExitTimers
    simp only [hgetKeep]
    simp only [mapGet_mapDel_self]
  · unfold runExitTimers
    exact hgetDrop
  · unfold onExitForSession runExitTimers
    simp only [hgetDrop]

/-- Witness for `exit_record_ttl`: empty state, session `"s1"`, exit code
`3` at time `0`; a listener attaching at `29999` consumes the record once,
while with no listener the timer at `30000` discards it. -/
theorem exit_record_ttl_witness :
    (mapGet (BridgeState.mk [] [] [] [] [] [] []).terminalSessionExitListeners "s1").getD []
        = ([] : List Nat) ∧
    (29999 : Nat) < 0 + EXIT_RECORD_RETENTION_MS ∧
    0 + EXIT_RECORD_RETENTION_MS ≤ (30000 : Nat) ∧
    (mapGet (emitTerminalExit (BridgeState.mk [] [] [] [] [] [] []) "s1" 3
        0).1.terminalExitBySession "s1" = some (3, 0 + EXIT_RECORD_RETENTION_MS) ∧
      (onExitForSession (runExitTimers (emitTerminalExit (BridgeState.mk [] [] [] [] [] [] [])
        "s1" 3 0).1 29999) "s1" 0).2 = [Delivery.sessionExit 0 3] ∧
      mapGet (onExitForSession (runExitTimers (emitTerminalExit
        (BridgeState.mk [] [] [] [] [] [] []) "s1" 3 0).1 29999) "s1"
        0).1.terminalExitBySession "s1" = none ∧
      (onExitForSession (onExitForSession (runExitTimers (emitTerminalExit
        (BridgeState.mk [] [] [] [] [] [] []) "s1" 3 0).1 29999) "s1" 0).1 "s1" 1).2 = [] ∧
      mapGet (runExitTimers (emitTerminalExit (BridgeState.mk [] [] [] [] [] [] []) "s1" 3
        0).1 30000).terminalExitBySession "s1" = none ∧
      (onExitForSession (runExitTimers (emitTerminalExit (BridgeState.mk [] [] [] [] [] [] [])
        "s1" 3 0).1 30000) "s1" 2).2 = []) :=
  ⟨rfl, by decide, by decide,
    exit_record_ttl (BridgeState.mk [] [] [] [] [] [] []) "s1" 3 0 29999 30000 0 1 2
      rfl (by decide) (by decide)⟩

theorem emitTerminalExit_teardown (st : BridgeState) (sid : String) (code : Int)
    (now : Nat) :
    mapGet (emitTerminalExit st sid code now).1.terminalDataBySession sid = none ∧
    mapGet (emitTerminalExit st sid code now).1.terminalSessionDataListeners sid = none ∧
    mapGet (emitTerminalExit st sid code now).1.terminalSessionExitListeners sid = none ∧
    mapGet (emitTerminalExit st sid code now).1.terminalSessionCwd sid = none := by
  simp only [emitTerminalExit]
  by_cases hc : ((mapGet st.terminalSessionExitListeners sid).getD []).length > 0
  · rw [if_pos hc]
    exact ⟨mapGet_mapDel_self _ _, mapGet_mapDel_self _ _, mapGet_mapDel_self _ _,
      mapGet_mapDel_self _ _⟩
  · rw [if_neg hc]
    exact ⟨mapGet_mapDel_self _ _, mapGet_mapDel_self _ _, mapGet_mapDel_self _ _,
      mapGet_mapDel_self _ _⟩

theorem ensurePaneSession_maps (app : AppState) (paneId : String) (rt : Bool)
    (fresh : Nat) :
    (ensurePaneSession app paneId rt fresh).2.1.paneSessionMap = app.paneSessionMap ∧
    (ensurePaneSession app paneId rt fresh).2.1.sessionPaneMap = app.sessionPaneMap := by
  unfold ensurePaneSession
  cases mapGet app.paneSessionMap paneId with
  | some s => exact ⟨rfl, rfl⟩
  | none =>
    cases mapGet app.creatingSession paneId with
    | some q => exact ⟨rfl, rfl⟩
    | none => cases rt <;> exact ⟨rfl, rfl⟩

theorem onTerminalExitHandler_maps (app : AppState) (sid : String) (exitCode : Int)
    (rt : Bool) (fresh : Nat) (paneId : String)
    (hsp : mapGet app.sessionPaneMap sid = some paneId) :
    (onTerminalExitHandler app sid exitCode rt fresh).1.sessionPaneMap =
      mapDel app.sessionPaneMap sid ∧
    (onTerminalExitHandler app sid exitCode rt fresh).1.paneSessionMap =
      mapDel app.paneSessionMap paneId := by
  unfold onTerminalExitHandler
  rw [hsp]
  cases rt with
  | false => exact ⟨rfl, rfl⟩
  | true =>
    have h := ensurePaneSession_maps
      (AppState.mk (mapDel app.paneSessionMap paneId) (mapDel app.sessionPaneMap sid)
        app.creatingSession) paneId true fresh
    exact ⟨h.2, h.1⟩

theorem paneInputWrite_unbound (app : AppState) (sid : String)
    (hnone : ∀ p, mapGet app.paneSessionMap p ≠ some sid) :
    ∀ p d ok c, c ∈ paneInputWrite app p d ok → BackendCall.sessionOf c ≠ sid := by
  intro p d ok c hc
  unfold paneInputWrite at hc
  cases hps : mapGet app.paneSessionMap p with
  | none =>
    rw [hps] at hc
    simp at hc
  | some s =>
    rw [hps] at hc
    have hc2 : c ∈ (writeTerminal s d ok).1 := hc
    unfold writeTerminal at hc2
    by_cases hs : s = ""
    · rw [if_pos hs] at hc2
      simp at hc2
    · rw [if_neg hs] at hc2
      simp only [List.mem_singleton] at hc2
      subst hc2
      intro habs
      have hs2 : s = sid := habs
      exact hnone p (hs2 ▸ hps)

theorem resizePaneTerminal_unbound (app : AppState) (sid : String)
    (hnone : ∀ p, mapGet app.paneSessionMap p ≠ some sid) :
    ∀ p rtp cols rows ok c, c ∈ resizePaneTerminal app p rtp cols rows ok →
      BackendCall.sessionOf c ≠ sid := by
  intro p rtp cols rows ok c hc
  unfold resizePaneTerminal at hc
  cases rtp with
  | false => simp at hc
  | true =>
    cases hps : mapGet app.paneSessionMap p with
    | none =>
      rw [hps] at hc
      simp at hc
    | some s =>
      rw [hps] at hc
      have hc2 : c ∈ (resizeTerminal s (max 2 cols) (max 2 rows) ok).1 := hc
      unfold resizeTerminal at hc2
      by_cases hs : s = ""
      · rw [if_pos hs] at hc2
        simp at hc2
      · rw [if_neg hs] at hc2
        simp only [List.mem_singleton] at hc2
        subst hc2
        intro habs
        have hs2 : s = sid := habs
        exact hnone p (hs2 ▸ hps)

/-- C5: processing an exit event for a session unconditionally removes the
session's output backlog, its per-session data and exit listener sets, and
its remembered working directory (`tauriAPI` variant, whether or not any
per-session listener consumed the event), and in the renderer/app variant
removes the output buffer and both directions of the pane-session mapping,
after which any pane-addressed write or resize issues no backend call
addressed at the exited session. -/
theorem exit_teardown_atomic (st : BridgeState) (rst : RendererState) (app : AppState)
    (sid : String) (code exitCode : Int) (now : Nat) (rt : Bool) (fresh : Nat)
    (hcons : ∀ p, mapGet app.paneSessionMap p = some sid →
      mapGet app.sessionPaneMap sid = some p) :
    mapGet (emitTerminalExit st sid code now).1.terminalDataBySession sid = none ∧
    mapGet (emitTerminalExit st sid code now).1.terminalSessionDataListeners sid = none ∧
    mapGet (emitTerminalExit st sid code now).1.terminalSessionExitListeners sid = none ∧
    mapGet (emitTerminalExit st sid code now).1.terminalSessionCwd sid = none ∧
    mapGet (processAppExit rst app sid exitCode rt
      fresh).1.terminalOutputBySession sid = none ∧
    mapGet (processAppExit rst app sid exitCode rt fresh).2.1.sessionPaneMap sid = none ∧
    (∀ p, mapGet (processAppExit rst app sid exitCode rt fresh).2.1.paneSessionMap p ≠
      some sid) ∧
    (∀ p d ok c, c ∈ paneInputWrite (processAppExit rst app sid exitCode rt fresh).2.1 p
      d ok → BackendCall.sessionOf c ≠ sid) ∧
    (∀ p rtp cols rows ok c,
      c ∈ resizePaneTerminal (processAppExit rst app sid exitCode rt fresh).2.1 p rtp
        cols rows ok → BackendCall.sessionOf c ≠ sid) := by
  obtain ⟨h1, h2, h3, h4⟩ := emitTerminalExit_teardown st sid code now
  have hrst : mapGet (processAppExit rst app sid exitCode rt
      fresh).1.terminalOutputBySession sid = none := mapGet_mapDel_self _ _
  have happ : (processAppExit rst app sid exitCode rt fresh).2.1 =
      (onTerminalExitHandler app sid exitCode rt fresh).1 := rfl
  have hnone : ∀ p, mapGet (onTerminalExitHandler app sid exitCode rt
      fresh).1.paneSessionMap p ≠ some sid := by
    intro p
    cases hsp : mapGet app.sessionPaneMap sid with
    | none =>
      have hid : (onTerminalExitHandler app sid exitCode rt fresh).1 = app := by
        unfold onTerminalExitHandler
        rw [hsp]
      rw [hid]
      intro habs
      have := hcons p habs
      rw [hsp] at this
      exact Option.noConfusion this
    | some paneId =>
      obtain ⟨hspm, hpsm⟩ := onTerminalExitHandler_maps app sid exitCode rt fresh paneId hsp
      rw [hpsm, mapGet_mapDel]
      by_cases hp : p = paneId
      · rw [if_pos hp]
        exact fun habs => Option.noConfusion habs
      · rw [if_neg hp]
        intro habs
        have := hcons p habs
        rw [hsp] at this
        exact hp (Option.some.inj this).symm
  have hspmNone : mapGet (onTerminalExitHandler app sid exitCode rt
      fresh).1.sessionPaneMap sid = none := by
    cases hsp : mapGet app.sessionPaneMap sid with
    | none =>
      have hid : (onTerminalExitHandler app sid exitCode rt fresh).1 = app := by
        unfold onTerminalExitHandler
        rw [hsp]
      rw [hid]
      exact hsp
    | some paneId =>
      obtain ⟨hspm, hpsm⟩ := onTerminalExitHandler_maps app sid exitCode rt fresh paneId hsp
      rw [hspm]
      exact mapGet_mapDel_self _ _
  refine ⟨h1, h2, h3, h4, hrst, ?_, ?_, ?_, ?_⟩
  · rw [happ]
    exact hspmNone
  · rw [happ]
    exact hnone
  · rw [happ]
    exact paneInputWrite_unbound _ sid hnone
  · rw [happ]
    exact resizePaneTerminal_unbound _ sid hnone

/-- Witness for `exit_teardown_atomic`: a state where pane `"p1"` is bound
to session `"s1"` in both directions, with a buffered backlog, listener
sets, a working directory and a renderer buffer for `"s1"`. -/
theorem exit_teardown_atomic_witness :
    (∀ p, mapGet (AppState.mk [("p1", "s1")] [("s1", "p1")] []).paneSessionMap p =
      some "s1" → mapGet (AppState.mk [("p1", "s1")] [("s1", "p1")] []).sessionPaneMap
      "s1" = some p) ∧
    mapGet (emitTerminalExit (BridgeState.mk [] [] [("s1", ['x'])] []
      [("s1", [4])] [("s1", [5])] [("s1", ['/'])]) "s1" 0
      0).1.terminalDataBySession "s1" = none ∧
    mapGet (emitTerminalExit (BridgeState.mk [] [] [("s1", ['x'])] []
      [("s1", [4])] [("s1", [5])] [("s1", ['/'])]) "s1" 0
      0).1.terminalSessionCwd "s1" = none ∧
    mapGet (processAppExit (RendererState.mk [("s1", ['x'])] [] [])
      (AppState.mk [("p1", "s1")] [("s1", "p1")] []) "s1" 0 true
      9).1.terminalOutputBySession "s1" = none ∧
    (∀ p, mapGet (processAppExit (RendererState.mk [("s1", ['x'])] [] [])
      (AppState.mk [("p1", "s1")] [("s1", "p1")] []) "s1" 0 true
      9).2.1.paneSessionMap p ≠ some "s1") ∧
    (∀ p d ok c, c ∈ paneInputWrite (processAppExit (RendererState.mk [("s1", ['x'])] [] [])
      (AppState.mk [("p1", "s1")] [("s1", "p1")] []) "s1" 0 true 9).2.1 p d ok →
      BackendCall.sessionOf c ≠ "s1") := by
  have hcons : ∀ p, mapGet (AppState.mk [("p1", "s1")] [("s1", "p1")] []).paneSessionMap p =
      some "s1" → mapGet (AppState.mk [("p1", "s1")] [("s1", "p1")] []).sessionPaneMap
      "s1" = some p := by
    intro p hp
    by_cases h : p = "p1"
    · rw [h]
      rfl
    · exfalso
      have hne : ("p1" : String) ≠ p := fun hx => h hx.symm
      unfold mapGet at hp
      simp [List.find?, hne] at hp
  have h := exit_teardown_atomic (BridgeState.mk [] [] [("s1", ['x'])] []
    [("s1", [4])] [("s1", [5])] [("s1", ['/'])]) (RendererState.mk [("s1", ['x'])] [] [])
    (AppState.mk [("p1", "s1")] [("s1", "p1")] []) "s1" 0 0 0 true 9 hcons
  exact ⟨hcons, h.1, h.2.2.2.1, h.2.2.2.2.1, h.2.2.2.2.2.2.1, h.2.2.2.2.2.2.2.1⟩

theorem runAttempts_first_ok {sh err res : Type} (backend : String → sh → Except err res)
    (defaultErr : err) (ca : String × sh) (post : List (String × sh)) (v : res)
    (hok : backend ca.1 ca.2 = .ok v) :
    ∀ (pre : List (String × sh)) (lastE : Option err),
      (∀ x ∈ pre, ∃ e, backend x.1 x.2 = .error e) →
      runAttempts backend defaultErr (pre ++ ca :: post) lastE = (.ok v, pre ++ [ca]) := by
  intro pre
  induction pre with
  | nil =>
    intro lastE _
    simp only [List.nil_append]
    unfold runAttempts
    rw [hok]
  | cons x rest ih =>
    intro lastE hpre
    obtain ⟨e, he⟩ := hpre x (List.mem_cons_self x rest)
    have hrest : ∀ y ∈ rest, ∃ e2, backend y.1 y.2 = .error e2 :=
      fun y hy => hpre y (List.mem_cons_of_mem x hy)
    show runAttempts backend defaultErr (x :: (rest ++ ca :: post)) lastE = _
    unfold runAttempts
    rw [he]
    show (Prod.fst (runAttempts backend defaultErr (rest ++ ca :: post) (some e)),
      x :: (runAttempts backend defaultErr (rest ++ ca :: post) (some e)).2) = _
    rw [ih (some e) hrest]
    rfl

theorem runAttempts_all_fail {sh err res : Type} (backend : String → sh → Except err res)
    (defaultErr : err) (ca : String × sh) (e : err)
    (herr : backend ca.1 ca.2 = .error e) :
    ∀ (init : List (String × sh)) (lastE : Option err),
      (∀ x ∈ init, ∃ e2, backend x.1 x.2 = .error e2) →
      runAttempts backend defaultErr (init ++ [ca]) lastE =
        (.error e, init ++ [ca]) := by
  intro init
  induction init with
  | nil =>
    intro lastE _
    simp only [List.nil_append]
    unfold runAttempts
    rw [herr]
    unfold runAttempts
    rfl
  | cons x rest ih =>
    intro lastE hinit
    obtain ⟨e2, he2⟩ := hinit x (List.mem_cons_self x rest)
    have hrest : ∀ y ∈ rest, ∃ e3, backend y.1 y.2 = .error e3 :=
      fun y hy => hinit y (List.mem_cons_of_mem x hy)
    show runAttempts backend defaultErr (x :: (rest ++ [ca])) lastE = _
    unfold runAttempts
    rw [he2]
    show (Prod.fst (runAttempts backend defaultErr (rest ++ [ca]) (some e2)),
      x :: (runAttempts backend defaultErr (rest ++ [ca]) (some e2)).2) = _
    rw [ih (some e2) hrest]
    rfl

/-- C6: `invokeWithFallbacks` tries the `(command, payload-shape)`
combinations in the fixed priority order given by the command list (the
canonical name first) crossed with the shape list (the canonical shape
first); it returns the result of the first combination that succeeds and
its attempt trace stops there, trying no later combination; when every
combination fails it throws the error of the last combination tried — the
last-seen error. -/
theorem invokeWithFallbacks_priority {sh err res : Type}
    (backend : String → sh → Except err res) (commands : List String)
    (argsVariants : List sh) (defaultErr : err) :
    (∀ pre ca post v,
      commands.flatMap (fun c => argsVariants.map (fun a => (c, a))) = pre ++ ca :: post →
      (∀ x ∈ pre, ∃ e, backend x.1 x.2 = .error e) →
      backend ca.1 ca.2 = .ok v →
      invokeWithFallbacks backend commands argsVariants defaultErr =
        (.ok v, pre ++ [ca])) ∧
    (∀ init ca e,
      commands.flatMap (fun c => argsVariants.map (fun a => (c, a))) = init ++ [ca] →
      (∀ x ∈ init, ∃ e2, backend x.1 x.2 = .error e2) →
      backend ca.1 ca.2 = .error e →
      invokeWithFallbacks backend commands argsVariants defaultErr =
        (.error e, init ++ [ca])) := by
  constructor
  · intro pre ca post v hsplit hpre hok
    unfold invokeWithFallbacks
    rw [hsplit]
    exact runAttempts_first_ok backend defaultErr ca post v hok pre none hpre
  · intro init ca e hsplit hinit herr
    unfold invokeWithFallbacks
    rw [hsplit]
    exact runAttempts_all_fail backend defaultErr ca e herr init none hinit

/-- A concrete backend for the fallback-dispatch witness: the canonical
`terminal_create` wire name always fails, while the alias `terminal:create`
succeeds with the first payload shape only. -/
def witnessBackend : String → Nat → Except String Nat :=
  fun c a => if c = "terminal:create" ∧ a = 0 then .ok 42 else .error c

/-- Witness for `invokeWithFallbacks_priority`: with the canonical name
failing and the alias succeeding, the overall call succeeds with the
alias's result after trying exactly the combinations up to it; and when
restricted to the always-failing canonical name alone, the call fails with
the last-seen error. -/
theorem invokeWithFallbacks_priority_witness :
    witnessBackend "terminal_create" 0 = .error "terminal_create" ∧
    witnessBackend "terminal:create" 0 = .ok 42 ∧
    invokeWithFallbacks witnessBackend ["terminal_create", "terminal:create"] [0, 1]
        "default" =
      (.ok 42, [("terminal_create", 0), ("terminal_create", 1), ("terminal:create", 0)]) ∧
    invokeWithFallbacks witnessBackend ["terminal_create"] [0, 1] "default" =
      (.error "terminal_create", [("terminal_create", 0), ("terminal_create", 1)]) := by
  refine ⟨rfl, rfl, ?_, ?_⟩
  · exact (invokeWithFallbacks_priority witnessBackend ["terminal_create",
      "terminal:create"] [0, 1] "default").1
      [("terminal_create", 0), ("terminal_create", 1)] ("terminal:create", 0)
      [("terminal:create", 1)] 42 rfl
      (by intro x hx; fin_cases hx <;> exact ⟨_, rfl⟩) rfl
  · exact (invokeWithFallbacks_priority witnessBackend ["terminal_create"] [0, 1]
      "default").2 [("terminal_create", 0)] ("terminal_create", 1) "terminal_create" rfl
      (by intro x hx; fin_cases hx <;> exact ⟨_, rfl⟩) rfl

/-- C7: for every output event, if the session's per-session output
listener set is non-empty the data is delivered live to each of those
listeners and the state — in particular the session's backlog — is left
completely unchanged (no buffering); only when the set is empty does the
data accumulate in the backlog, with only the global listeners notified. -/
theorem emitTerminalData_live_vs_buffer (st : BridgeState) (sid : String)
    (d : List Char) :
    (∀ ls, mapGet st.terminalSessionDataListeners sid = some ls → ls ≠ [] →
      emitTerminalData st sid d =
        (st, st.terminalDataListeners.map (fun g => Delivery.globalData g sid d) ++
          ls.map (fun l => Delivery.sessionData l d))) ∧
    ((mapGet st.terminalSessionDataListeners sid).getD [] = [] →
      mapGet (emitTerminalData st sid d).1.terminalDataBySession sid =
        some (takeRightL TERMINAL_BUFFER_LIMIT
          ((mapGet st.terminalDataBySession sid).getD [] ++ d)) ∧
      (emitTerminalData st sid d).2 =
        st.terminalDataListeners.map (fun g => Delivery.globalData g sid d)) := by
  constructor
  · intro ls hls hne
    have hpos : (0 : Nat) < ls.length := List.length_pos.mpr hne
    simp only [emitTerminalData, hls, Option.getD_some]
    rw [if_pos hpos]
  · intro hempty
    obtain ⟨hdb, _⟩ := emitTerminalData_noListener st sid d hempty
    constructor
    · rw [hdb]
      exact mapGet_mapSet_self _ _ _
    · simp only [emitTerminalData, hempty, List.length_nil, gt_iff_lt, Nat.lt_irrefl,
        if_false]

/-- Witness for `emitTerminalData_live_vs_buffer`: with listener `5`
attached for `"s1"` and global listener `9`, output is delivered live and
the state is unchanged; with no per-session listener the same event is
buffered and only the global listener is notified. -/
theorem emitTerminalData_live_vs_buffer_witness :
    mapGet (BridgeState.mk [9] [] [("s1", ['x'])] [] [("s1", [5])] []
        []).terminalSessionDataListeners "s1" = some [5] ∧
    ([5] : List Nat) ≠ [] ∧
    emitTerminalData (BridgeState.mk [9] [] [("s1", ['x'])] [] [("s1", [5])] [] [])
        "s1" ['d'] =
      (BridgeState.mk [9] [] [("s1", ['x'])] [] [("s1", [5])] [] [],
        [Delivery.globalData 9 "s1" ['d'], Delivery.sessionData 5 ['d']]) ∧
    (mapGet (BridgeState.mk [9] [] [("s1", ['x'])] [] [] [] []).terminalSessionDataListeners
        "s1").getD [] = [] ∧
    mapGet (emitTerminalData (BridgeState.mk [9] [] [("s1", ['x'])] [] [] [] []) "s1"
        ['d']).1.terminalDataBySession "s1" =
      some (takeRightL TERMINAL_BUFFER_LIMIT (['x'] ++ ['d'])) ∧
    (emitTerminalData (BridgeState.mk [9] [] [("s1", ['x'])] [] [] [] []) "s1" ['d']).2 =
      [Delivery.globalData 9 "s1" ['d']] := by
  have hA := (emitTerminalData_live_vs_buffer
    (BridgeState.mk [9] [] [("s1", ['x'])] [] [("s1", [5])] [] []) "s1" ['d']).1
    [5] rfl (by decide)
  have hB := (emitTerminalData_live_vs_buffer
    (BridgeState.mk [9] [] [("s1", ['x'])] [] [] [] []) "s1" ['d']).2 rfl
  exact ⟨rfl, by decide, hA, rfl, hB.1, hB.2⟩

/-- Counterexample to C8 as stated: a `killTerminal` call in the renderer
bridge whose remote kill fails does issue the kill, but the session's
backlog entry is not forgotten — it survives the call, so the local
bookkeeping is not cleared "regardless of whether the remote kill call
succeeds or fails". -/
theorem killTerminal_failure_keeps_backlog :
    (killTerminal (RendererState.mk [("s1", ['x'])] [] []) "s1" false).2.1 =
      [BackendCall.kill "s1"] ∧
    (killTerminal (RendererState.mk [("s1", ['x'])] [] []) "s1" false).2.2 = true ∧
    mapGet (killTerminal (RendererState.mk [("s1", ['x'])] [] []) "s1"
      false).1.terminalOutputBySession "s1" = some ['x'] :=
  ⟨rfl, rfl, rfl⟩

/-- C8 amended: `terminal.destroy` (tauriAPI variant) deletes the
session's backlog, delayed exit record and working-directory entries
before issuing the remote kill, hence independently of its outcome;
`disposePaneRuntime` forgets the pane-to-session mapping (both
directions) and the in-flight marker likewise independently of the remote
outcome; but the renderer bridge's `killTerminal` deletes its backlog
entry only when the remote call succeeds and leaves the state unchanged
when it fails. -/
theorem kill_local_cleanup (st : BridgeState) (rst : RendererState) (app : AppState)
    (s : String) (paneId : String) (remoteOk : Bool) (hs : s ≠ "") :
    mapGet (terminalDestroy st (JVal.str s)).1.terminalDataBySession s = none ∧
    mapGet (terminalDestroy st (JVal.str s)).1.terminalExitBySession s = none ∧
    mapGet (terminalDestroy st (JVal.str s)).1.terminalSessionCwd s = none ∧
    (terminalDestroy st (JVal.str s)).2 = [BackendCall.kill s] ∧
    mapGet (disposePaneRuntime app rst paneId true remoteOk).1.paneSessionMap paneId =
      none ∧
    mapGet (disposePaneRuntime app rst paneId true remoteOk).1.creatingSession paneId =
      none ∧
    (∀ sess, mapGet app.paneSessionMap paneId = some sess →
      mapGet (disposePaneRuntime app rst paneId true
        remoteOk).1.sessionPaneMap sess = none) ∧
    (remoteOk = true →
      mapGet (killTerminal rst s remoteOk).1.terminalOutputBySession s = none) ∧
    (remoteOk = false → (killTerminal rst s remoteOk).1 = rst) ∧
    (killTerminal rst s remoteOk).2.1 = [BackendCall.kill s] := by
  have has : asNonEmptyString (JVal.str s) = some s := by
    show (if s = "" then none else some s) = some s
    rw [if_neg hs]
  have hdestroy : terminalDestroy st (JVal.str s) =
      (BridgeState.mk st.terminalDataListeners st.terminalExitListeners
        (mapDel st.terminalDataBySession s) (mapDel st.terminalExitBySession s)
        st.terminalSessionDataListeners st.terminalSessionExitListeners
        (mapDel st.terminalSessionCwd s),
        [BackendCall.kill s]) := by
    unfold terminalDestroy
    rw [has]
  refine ⟨?_, ?_, ?_, ?_, ?_, ?_, ?_, ?_, ?_, ?_⟩
  · rw [hdestroy]
    exact mapGet_mapDel_self _ _
  · rw [hdestroy]
    exact mapGet_mapDel_self _ _
  · rw [hdestroy]
    exact mapGet_mapDel_self _ _
  · rw [hdestroy]
  · unfold disposePaneRuntime
    cases hb : mapGet app.paneSessionMap paneId with
    | none => exact mapGet_mapDel_self _ _
    | some sess0 => exact mapGet_mapDel_self _ _
  · unfold disposePaneRuntime
    cases hb : mapGet app.paneSessionMap paneId with
    | none => exact mapGet_mapDel_self _ _
    | some sess0 => exact mapGet_mapDel_self _ _
  · intro sess hsess
    unfold disposePaneRuntime
    rw [hsess]
    exact mapGet_mapDel_self _ _
  · intro hok
    subst hok
    unfold killTerminal
    rw [if_neg hs]
    exact mapGet_mapDel_self _ _
  · intro hfail
    subst hfail
    unfold killTerminal
    rw [if_neg hs]
    rfl
  · cases remoteOk with
    | false =>
      unfold killTerminal
      rw [if_neg hs]
      rfl
    | true =>
      unfold killTerminal
      rw [if_neg hs]
      rfl

/-- Witness for `kill_local_cleanup`: session `"s1"` bound to pane `"p1"`
with bridge bookkeeping present and a failing remote kill. -/
theorem kill_local_cleanup_witness :
    ("s1" : String) ≠ "" ∧
    mapGet (terminalDestroy (BridgeState.mk [] [] [("s1", ['x'])] [("s1", (0, 1))]
      [] [] [("s1", ['/'])]) (JVal.str "s1")).1.terminalDataBySession "s1" = none ∧
    (terminalDestroy (BridgeState.mk [] [] [("s1", ['x'])] [("s1", (0, 1))] [] []
      [("s1", ['/'])]) (JVal.str "s1")).2 = [BackendCall.kill "s1"] ∧
    mapGet (disposePaneRuntime (AppState.mk [("p1", "s1")] [("s1", "p1")] [("p1", 3)])
      (RendererState.mk [("s1", ['x'])] [] []) "p1" true
      false).1.paneSessionMap "p1" = none ∧
    (false = false → (killTerminal (RendererState.mk [("s1", ['x'])] [] []) "s1"
      false).1 = RendererState.mk [("s1", ['x'])] [] []) := by
  have h := kill_local_cleanup (BridgeState.mk [] [] [("s1", ['x'])] [("s1", (0, 1))]
    [] [] [("s1", ['/'])]) (RendererState.mk [("s1", ['x'])] [] [])
    (AppState.mk [("p1", "s1")] [("s1", "p1")] [("p1", 3)]) "s1" "p1" false
    (by decide)
  exact ⟨by decide, h.1, h.2.2.2.1, h.2.2.2.2.1, h.2.2.2.2.2.2.2.2.1⟩

/-- C9: every resize request issued for a pane's bound session carries
columns and rows floored to a minimum of 2 (`Math.max(2, ...)` in
`resizePaneTerminal`), so no resize call leaves with cols or rows below 2;
and the `tauriAPI` resize transport passes values of at least 2 through
unchanged (`Number(v || 1)` is the identity on non-zero values). -/
theorem resize_min_two (app : AppState) (paneId : String) (rt : Bool)
    (cols rows : Int) (ok : Bool) (st : BridgeState) (s : String) (c r : Int)
    (hs : s ≠ "") (hc : 2 ≤ c) (hr : 2 ≤ r) :
    (∀ sess cc rr, BackendCall.resize sess cc rr ∈
        resizePaneTerminal app paneId rt cols rows ok →
      cc = max 2 cols ∧ rr = max 2 rows ∧ 2 ≤ cc ∧ 2 ≤ rr) ∧
    terminalResize st (JVal.str s) c r = (st, [BackendCall.resize s c r]) := by
  constructor
  · intro sess cc rr hmem
    unfold resizePaneTerminal at hmem
    cases rt with
    | false => simp at hmem
    | true =>
      cases hps : mapGet app.paneSessionMap paneId with
      | none =>
        rw [hps] at hmem
        simp at hmem
      | some s0 =>
        rw [hps] at hmem
        have hmem2 : BackendCall.resize sess cc rr ∈
            (resizeTerminal s0 (max 2 cols) (max 2 rows) ok).1 := hmem
        unfold resizeTerminal at hmem2
        by_cases h0 : s0 = ""
        · rw [if_pos h0] at hmem2
          simp at hmem2
        · rw [if_neg h0] at hmem2
          simp only [List.mem_singleton] at hmem2
          injection hmem2 with h1 h2 h3
          exact ⟨h2, h3, h2 ▸ le_max_left 2 cols, h3 ▸ le_max_left 2 rows⟩
  · have has : asNonEmptyString (JVal.str s) = some s := by
      show (if s = "" then none else some s) = some s
      rw [if_neg hs]
    have hcn : numberOr1 c = c := by
      unfold numberOr1
      rw [if_neg (by omega)]
    have hrn : numberOr1 r = r := by
      unfold numberOr1
      rw [if_neg (by omega)]
    unfold terminalResize
    rw [has, hcn, hrn]

/-- Witness for `resize_min_two`: pane `"p1"` bound to `"s1"` with surface
dimensions 1×0 issues a resize floored to 2×2, and the transport passes
2×7 through unchanged. -/
theorem resize_min_two_witness :
    ("s1" : String) ≠ "" ∧ (2 : Int) ≤ 2 ∧ (2 : Int) ≤ 7 ∧
    resizePaneTerminal (AppState.mk [("p1", "s1")] [("s1", "p1")] []) "p1" true 1 0 true =
      [BackendCall.resize "s1" 2 2] ∧
    ((2 : Int) = max 2 (1 : Int) ∧ (2 : Int) = max 2 (0 : Int) ∧ (2 : Int) ≤ 2 ∧
      (2 : Int) ≤ 2) ∧
    terminalResize (BridgeState.mk [] [] [] [] [] [] []) (JVal.str "s1") 2 7 =
      (BridgeState.mk [] [] [] [] [] [] [], [BackendCall.resize "s1" 2 7]) := by
  have h := resize_min_two (AppState.mk [("p1", "s1")] [("s1", "p1")] []) "p1" true 1 0
    true (BridgeState.mk [] [] [] [] [] [] []) "s1" 2 7 (by decide) (by decide)
    (by decide)
  refine ⟨by decide, by decide, by decide, by decide, ?_, h.2⟩
  exact h.1 "s1" 2 2 (by decide)

/-- C10: calling the public terminal write, resize, or kill/destroy
operations with a session id that is not a non-empty string — the empty
string, or any non-string value in the untyped `tauriAPI` variant —
returns immediately: no backend call is issued, nothing is thrown, and the
local session state is left unchanged.  In the string-typed renderer
bridge the only such id is the empty string. -/
theorem empty_session_id_noop (st : BridgeState) (rst : RendererState) (id : JVal)
    (d : List Char) (cols rows : Int) (ok : Bool)
    (hid : asNonEmptyString id = none) :
    terminalWrite st id d = (st, []) ∧
    terminalResize st id cols rows = (st, []) ∧
    terminalDestroy st id = (st, []) ∧
    writeTerminal "" d ok = ([], false) ∧
    resizeTerminal "" cols rows ok = ([], false) ∧
    killTerminal rst "" ok = (rst, [], false) := by
  refine ⟨?_, ?_, ?_, rfl, rfl, rfl⟩
  · unfold terminalWrite
    rw [hid]
  · unfold terminalResize
    rw [hid]
  · unfold terminalDestroy
    rw [hid]

/-- Witness for `empty_session_id_noop`: once with the empty string id and
once with a numeric (non-string) id. -/
theorem empty_session_id_noop_witness :
    asNonEmptyString (JVal.str "") = none ∧
    asNonEmptyString (JVal.num 7) = none ∧
    terminalWrite (BridgeState.mk [] [] [("s1", ['x'])] [] [] [] []) (JVal.str "")
      ['d'] = (BridgeState.mk [] [] [("s1", ['x'])] [] [] [] [], []) ∧
    terminalDestroy (BridgeState.mk [] [] [("s1", ['x'])] [] [] [] []) (JVal.num 7) =
      (BridgeState.mk [] [] [("s1", ['x'])] [] [] [] [], []) ∧
    killTerminal (RendererState.mk [("s1", ['x'])] [] []) "" true =
      (RendererState.mk [("s1", ['x'])] [] [], [], false) := by
  have hA := empty_session_id_noop (BridgeState.mk [] [] [("s1", ['x'])] [] [] [] [])
    (RendererState.mk [("s1", ['x'])] [] []) (JVal.str "") ['d'] 3 4 true rfl
  have hB := empty_session_id_noop (BridgeState.mk [] [] [("s1", ['x'])] [] [] [] [])
    (RendererState.mk [("s1", ['x'])] [] []) (JVal.num 7) ['d'] 3 4 true rfl
  exact ⟨rfl, rfl, hA.1, hB.2.2.1, hA.2.2.2.2.2⟩

end OpenSpace
